import Mathlib

/-!
Verification of the pose-detector post-processing pipeline
(`mediapipe/tasks/cc/vision/pose_detector/pose_detector_graph.cc`).

The source file under scrutiny wires seven calculator stages into a graph and
fixes their configurations.  The calculator implementations themselves
(TensorsToDetectionsCalculator, NonMaxSuppressionCalculator,
DetectionProjectionCalculator, ClipVectorSizeCalculator,
DetectionsToRectsCalculator, RectTransformationCalculator,
DetectionTransformationCalculator) are part of the same repository but are not
in the source tree given here; each of those stages is therefore modelled from
the specification, as marked on the individual definitions.  The configuration
records and the data flow between stages are translated directly from
`pose_detector_graph.cc`.

Geometry that needs transcendental functions (rotation angles) lives in `ℝ`;
everything the detection stages compute is rational arithmetic and is kept in
`ℚ` so that it evaluates.
-/

namespace PoseDetector

/-- An axis-aligned box in normalized coordinates, kept as center plus size
(the representation used by the detection decoding path). -/
structure Box where
  xCenter : ℚ
  yCenter : ℚ
  width : ℚ
  height : ℚ
  deriving Repr, DecidableEq

/-- A detection: score, box, and an ordered keypoint list, as in
`mediapipe::Detection` restricted to the fields this pipeline uses. -/
structure Detection where
  score : ℚ
  box : Box
  keypoints : List (ℚ × ℚ)
  deriving Repr, DecidableEq

instance : Inhabited Detection :=
  ⟨{ score := 0, box := ⟨0, 0, 0, 0⟩, keypoints := [] }⟩

/-- An SSD anchor: center and size in normalized coordinates. -/
structure Anchor where
  xCenter : ℚ
  yCenter : ℚ
  w : ℚ
  h : ℚ
  deriving Repr, DecidableEq

/-- One row of the raw model output: the `num_coords` box-tensor values for
this row plus the raw class score read from the score tensor. -/
structure RawRow where
  boxData : List ℚ
  rawScore : ℚ
  deriving Repr, DecidableEq

/-- Options of `TensorsToDetectionsCalculator` that
`ConfigureTensorsToDetectionsCalculator` sets. -/
structure TensorsToDetectionsConfig where
  numClasses : Nat
  numBoxes : Nat
  numCoords : Nat
  boxCoordOffset : Nat
  keypointCoordOffset : Nat
  numKeypoints : Nat
  numValuesPerKeypoint : Nat
  sigmoidScore : Bool
  scoreClippingThresh : ℚ
  reverseOutputOrder : Bool
  minScoreThresh : ℚ
  xScale : ℚ
  yScale : ℚ
  wScale : ℚ
  hScale : ℚ
  deriving Repr, DecidableEq

/-- Translation of `ConfigureTensorsToDetectionsCalculator`
(pose_detector_graph.cc lines 96-116): every field is the literal the C++
function sets, with `min_score_thresh` taken from the task option
`min_detection_confidence`. -/
def ConfigureTensorsToDetectionsCalculator
    (minDetectionConfidence : ℚ) : TensorsToDetectionsConfig where
  numClasses := 1
  numBoxes := 2254
  numCoords := 12
  boxCoordOffset := 0
  keypointCoordOffset := 4
  numKeypoints := 4
  numValuesPerKeypoint := 2
  sigmoidScore := true
  scoreClippingThresh := 100
  reverseOutputOrder := true
  minScoreThresh := minDetectionConfidence
  xScale := 224
  yScale := 224
  wScale := 224
  hScale := 224

/-- `clip x lo hi` clamps `x` into `[lo, hi]`. -/
def clip (x lo hi : ℚ) : ℚ := max lo (min hi x)

/-- Modelled from the spec: the score activation of the TensorDecoder stage
(`TensorsToDetectionsCalculator`, not in the given tree).  If `sigmoid_score`
is set, the raw score is clipped to
`[-score_clipping_thresh, score_clipping_thresh]` and the logistic sigmoid is
applied; otherwise the raw score is used directly.  The sigmoid itself is
transcendental, so it is passed in as a function `σ`. -/
def finalScore (σ : ℚ → ℚ) (cfg : TensorsToDetectionsConfig) (raw : ℚ) : ℚ :=
  if cfg.sigmoidScore then
    σ (clip raw (-cfg.scoreClippingThresh) cfg.scoreClippingThresh)
  else raw

/-- Modelled from the spec: box decoding of one tensor row by the
TensorDecoder stage.  Box center is `anchor.center + delta/scale`; width and
height are `anchor.dim * (delta/scale)` (the linear decode convention — the
configuration in the source does not request the exponential one); each
keypoint is decoded analogously with `x_scale`/`y_scale`.  With
`reverse_output_order` set, the coordinate order inside a row is
`x, y, w, h`. -/
def decodeRow (σ : ℚ → ℚ) (cfg : TensorsToDetectionsConfig)
    (anchor : Anchor) (row : RawRow) : Detection :=
  let val : Nat → ℚ := fun i => row.boxData.getD i 0
  let b := cfg.boxCoordOffset
  let dx := if cfg.reverseOutputOrder then val b else val (b + 1)
  let dy := if cfg.reverseOutputOrder then val (b + 1) else val b
  let dw := if cfg.reverseOutputOrder then val (b + 2) else val (b + 3)
  let dh := if cfg.reverseOutputOrder then val (b + 3) else val (b + 2)
  let kp : Nat → ℚ × ℚ := fun j =>
    let o := cfg.keypointCoordOffset + j * cfg.numValuesPerKeypoint
    let kx := if cfg.reverseOutputOrder then val o else val (o + 1)
    let ky := if cfg.reverseOutputOrder then val (o + 1) else val o
    (anchor.xCenter + kx / cfg.xScale, anchor.yCenter + ky / cfg.yScale)
  { score := finalScore σ cfg row.rawScore
    box :=
      { xCenter := anchor.xCenter + dx / cfg.xScale
        yCenter := anchor.yCenter + dy / cfg.yScale
        width := anchor.w * (dw / cfg.wScale)
        height := anchor.h * (dh / cfg.hScale) }
    keypoints := (List.range cfg.numKeypoints).map kp }

/-- Modelled from the spec: the TensorDecoder stage
(`TensorsToDetectionsCalculator`, not in the given tree).  Each tensor row is
decoded against its order-aligned anchor; rows whose final score is strictly
below `min_score_thresh` are discarded; output follows tensor row order. -/
def TensorsToDetections (σ : ℚ → ℚ) (cfg : TensorsToDetectionsConfig)
    (anchors : List Anchor) (rows : List RawRow) : List Detection :=
  ((anchors.zip rows).map (fun p => decodeRow σ cfg p.1 p.2)).filter
    (fun d => decide (cfg.minScoreThresh ≤ d.score))

/-- Options of `NonMaxSuppressionCalculator` that
`ConfigureNonMaxSuppressionCalculator` sets.  `overlap_type` and `algorithm`
are fixed to IoU and WEIGHTED, so only the threshold is a field here; the
fixed choices are what the model below implements. -/
structure NonMaxSuppressionConfig where
  minSuppressionThreshold : ℚ
  deriving Repr, DecidableEq

/-- Translation of `ConfigureNonMaxSuppressionCalculator`
(pose_detector_graph.cc lines 118-127): the threshold comes from the task
option `min_suppression_threshold`; overlap type INTERSECTION_OVER_UNION and
algorithm WEIGHTED are fixed. -/
def ConfigureNonMaxSuppressionCalculator
    (minSuppressionThreshold : ℚ) : NonMaxSuppressionConfig where
  minSuppressionThreshold := minSuppressionThreshold

/-- Area of an axis-aligned box. -/
def Box.area (b : Box) : ℚ := b.width * b.height

/-- Modelled from the spec: intersection-over-union of two axis-aligned boxes
(the overlap metric of `NonMaxSuppressionCalculator`, not in the given tree).
Rotation is ignored; a non-positive union yields 0. -/
def iou (a b : Box) : ℚ :=
  let interW := max 0 (min (a.xCenter + a.width / 2) (b.xCenter + b.width / 2)
    - max (a.xCenter - a.width / 2) (b.xCenter - b.width / 2))
  let interH := max 0 (min (a.yCenter + a.height / 2) (b.yCenter + b.height / 2)
    - max (a.yCenter - a.height / 2) (b.yCenter - b.height / 2))
  let inter := interW * interH
  let uni := a.area + b.area - inter
  if 0 < uni then inter / uni else 0

/-- Insert a detection into a descending-score list, going past every element
with a strictly larger or equal score (equal scores keep the earlier element
first: stable tie-break by original index). -/
def insertByScoreDesc (d : Detection) : List Detection → List Detection
  | [] => [d]
  | h :: t => if h.score ≤ d.score then d :: h :: t else h :: insertByScoreDesc d t

/-- Modelled from the spec: stable sort by descending score used by the
Suppressor stage before clustering. -/
def sortByScoreDesc : List Detection → List Detection
  | [] => []
  | d :: t => insertByScoreDesc d (sortByScoreDesc t)

/-- Modelled from the spec: weighted merge of one cluster.  The seed's score is
retained unchanged; the output box and keypoints are the score-weighted
averages over the cluster, weight = each member's score. -/
def weightedCluster (seed : Detection) (cluster : List Detection) : Detection :=
  let total := (cluster.map (fun d => d.score)).sum
  let avg : (Detection → ℚ) → ℚ := fun f =>
    (cluster.map (fun d => d.score * f d)).sum / total
  { score := seed.score
    box :=
      { xCenter := avg (fun d => d.box.xCenter)
        yCenter := avg (fun d => d.box.yCenter)
        width := avg (fun d => d.box.width)
        height := avg (fun d => d.box.height) }
    keypoints := (List.range seed.keypoints.length).map (fun j =>
      (avg (fun d => (d.keypoints.getD j (0, 0)).1),
       avg (fun d => (d.keypoints.getD j (0, 0)).2))) }

/-- Modelled from the spec: the clustering loop of the Suppressor.  The head of
the (descending-sorted) pool seeds a cluster of every remaining detection whose
IoU with the seed reaches the threshold; the cluster is merged weighted and
removed; repeat.  The loop consumes at least one detection per round, so
running it with the pool's length as fuel is the exact loop; fuel keeps the
recursion structural. -/
def nmsLoop (thresh : ℚ) : Nat → List Detection → List Detection
  | 0, _ => []
  | _, [] => []
  | fuel + 1, seed :: rest =>
    let cluster := seed :: rest.filter (fun d => decide (thresh ≤ iou seed.box d.box))
    let remaining := rest.filter (fun d => !decide (thresh ≤ iou seed.box d.box))
    weightedCluster seed cluster :: nmsLoop thresh fuel remaining

/-- Modelled from the spec: the Suppressor stage
(`NonMaxSuppressionCalculator` with WEIGHTED algorithm and IoU overlap, not in
the given tree): sort by descending score, then cluster and merge. -/
def NonMaxSuppression (cfg : NonMaxSuppressionConfig)
    (dets : List Detection) : List Detection :=
  nmsLoop cfg.minSuppressionThreshold dets.length (sortByScoreDesc dets)

/-- A 2D affine transform (the effective content of the 4x4 projection matrix
the preprocessing step emits): `p ↦ (a p.x + b p.y + tx, c p.x + d p.y + ty)`. -/
structure AffineTransform where
  a : ℚ
  b : ℚ
  c : ℚ
  d : ℚ
  tx : ℚ
  ty : ℚ
  deriving Repr, DecidableEq

/-- Apply an affine transform to a point. -/
def AffineTransform.apply (m : AffineTransform) (p : ℚ × ℚ) : ℚ × ℚ :=
  (m.a * p.1 + m.b * p.2 + m.tx, m.c * p.1 + m.d * p.2 + m.ty)

/-- Modelled from the spec: box projection of the Projector stage
(`DetectionProjectionCalculator`, not in the given tree): transform the four
corners of the axis-aligned box and take the axis-aligned bounding box of the
transformed corners. -/
def projectBox (m : AffineTransform) (b : Box) : Box :=
  let corners := [
    m.apply (b.xCenter - b.width / 2, b.yCenter - b.height / 2),
    m.apply (b.xCenter + b.width / 2, b.yCenter - b.height / 2),
    m.apply (b.xCenter - b.width / 2, b.yCenter + b.height / 2),
    m.apply (b.xCenter + b.width / 2, b.yCenter + b.height / 2)]
  let xs := corners.map Prod.fst
  let ys := corners.map Prod.snd
  let xmin := xs.foldr min (m.apply (b.xCenter, b.yCenter)).1
  let xmax := xs.foldr max (m.apply (b.xCenter, b.yCenter)).1
  let ymin := ys.foldr min (m.apply (b.xCenter, b.yCenter)).2
  let ymax := ys.foldr max (m.apply (b.xCenter, b.yCenter)).2
  { xCenter := (xmin + xmax) / 2
    yCenter := (ymin + ymax) / 2
    width := xmax - xmin
    height := ymax - ymin }

/-- Modelled from the spec: per-detection action of the Projector stage —
coordinates (box and keypoints) are rewritten through the transform, score and
keypoint count are untouched. -/
def projectDetection (m : AffineTransform) (d : Detection) : Detection :=
  { score := d.score
    box := projectBox m d.box
    keypoints := d.keypoints.map m.apply }

/-- Modelled from the spec: the Projector stage
(`DetectionProjectionCalculator`, not in the given tree): every detection is
rewritten, none dropped or added. -/
def DetectionProjection (m : AffineTransform) (dets : List Detection) :
    List Detection :=
  dets.map (projectDetection m)

/-- Modelled from the spec: the Limiter's calculator
(`ClipDetectionVectorSizeCalculator`, not in the given tree): truncate to the
first `n` entries when the input is longer, otherwise pass through. -/
def ClipVectorSize (n : Nat) (l : List Detection) : List Detection :=
  if n < l.length then l.take n else l

/-- The Limiter as wired in `BuildPoseDetectionSubgraph` (pose_detector_graph.cc
lines 293-303): the clip node exists only when `num_poses` is set; otherwise
the stream is passed on unchanged. -/
def limiter (numPoses : Option Nat) (l : List Detection) : List Detection :=
  match numPoses with
  | some n => ClipVectorSize n l
  | none => l

/-- `mediapipe::NormalizedRect`: center, size and rotation (radians,
counter-clockwise) in normalized image coordinates. -/
structure NormalizedRect where
  xCenter : ℝ
  yCenter : ℝ
  width : ℝ
  height : ℝ
  rotation : ℝ

/-- The zero rect `{0,0,0,0,0}` emitted for empty detection input. -/
def zeroRect : NormalizedRect := ⟨0, 0, 0, 0, 0⟩

/-- Width and height in pixels of the original input frame. -/
structure ImageSize where
  width : ℚ
  height : ℚ
  deriving Repr, DecidableEq

/-- Options of `DetectionsToRectsCalculator` that
`ConfigureDetectionsToRectsCalculator` sets.  The target angle is kept in
radians, the convention the rotation formula uses. -/
structure DetectionsToRectsConfig where
  rotationVectorStartKeypointIndex : Nat
  rotationVectorEndKeypointIndex : Nat
  rotationVectorTargetAngle : ℝ
  outputZeroRectForEmptyDetections : Bool

/-- Translation of `ConfigureDetectionsToRectsCalculator`
(pose_detector_graph.cc lines 131-137): start keypoint 0, end keypoint 2,
target angle 90 degrees (the spec's angular convention is radians, so the
field holds `π/2`), and the zero-rect-for-empty-detections policy enabled. -/
noncomputable def ConfigureDetectionsToRectsCalculator : DetectionsToRectsConfig where
  rotationVectorStartKeypointIndex := 0
  rotationVectorEndKeypointIndex := 2
  rotationVectorTargetAngle := Real.pi / 2
  outputZeroRectForEmptyDetections := true

/-- Modelled from the spec: the two-argument arctangent, the `atan2` the
RectDeriver's rotation formula uses. -/
noncomputable def atan2 (y x : ℝ) : ℝ :=
  if 0 < x then Real.arctan (y / x)
  else if x < 0 ∧ 0 ≤ y then Real.arctan (y / x) + Real.pi
  else if x < 0 ∧ y < 0 then Real.arctan (y / x) - Real.pi
  else if x = 0 ∧ 0 < y then Real.pi / 2
  else if x = 0 ∧ y < 0 then -(Real.pi / 2)
  else 0

/-- Modelled from the spec: normalization of an angle into the canonical range
`[-π, π)`. -/
noncomputable def normalizeRadians (a : ℝ) : ℝ :=
  a - 2 * Real.pi * ⌊(a + Real.pi) / (2 * Real.pi)⌋

/-- Modelled from the spec: the rotation computed by the RectDeriver stage
(`DetectionsToRectsCalculator`, not in the given tree):
`target_angle − atan2(end.y − start.y, end.x − start.x)`, normalized. -/
noncomputable def computeRotation (cfg : DetectionsToRectsConfig)
    (kps : List (ℚ × ℚ)) : ℝ :=
  let s := kps.getD cfg.rotationVectorStartKeypointIndex (0, 0)
  let e := kps.getD cfg.rotationVectorEndKeypointIndex (0, 0)
  normalizeRadians
    (cfg.rotationVectorTargetAngle - atan2 ((e.2 : ℝ) - (s.2 : ℝ)) ((e.1 : ℝ) - (s.1 : ℝ)))

/-- Modelled from the spec: one rect per detection — center and size are the
detection's box center and size, rotation comes from the two configured
keypoints. -/
noncomputable def detectionToRect (cfg : DetectionsToRectsConfig)
    (d : Detection) : NormalizedRect where
  xCenter := (d.box.xCenter : ℝ)
  yCenter := (d.box.yCenter : ℝ)
  width := (d.box.width : ℝ)
  height := (d.box.height : ℝ)
  rotation := computeRotation cfg d.keypoints

/-- Modelled from the spec: the RectDeriver stage
(`DetectionsToRectsCalculator`, not in the given tree).  Empty input with the
zero-rect policy enabled yields exactly one zero rect; otherwise one rect per
detection, in order. -/
noncomputable def DetectionsToRects (cfg : DetectionsToRectsConfig)
    (dets : List Detection) : List NormalizedRect :=
  match dets with
  | [] => if cfg.outputZeroRectForEmptyDetections then [zeroRect] else []
  | _ :: _ => dets.map (detectionToRect cfg)

/-- Options of `RectTransformationCalculator` that
`ConfigureRectTransformationCalculator` sets (plus `shift_x`, which the source
leaves at its default 0). -/
structure RectTransformationConfig where
  scaleX : ℝ
  scaleY : ℝ
  shiftX : ℝ
  shiftY : ℝ
  squareLong : Bool

/-- Translation of `ConfigureRectTransformationCalculator`
(pose_detector_graph.cc lines 141-147): `scale_x = scale_y = 2.6`,
`shift_y = -0.5`, `square_long` set; `shift_x` stays at its default 0. -/
def ConfigureRectTransformationCalculator : RectTransformationConfig where
  scaleX := 2.6
  scaleY := 2.6
  shiftX := 0
  shiftY := -0.5
  squareLong := true

/-- Modelled from the spec: the RectExpander stage
(`RectTransformationCalculator`, not in the given tree).  Width and height are
scaled by `scale_x`/`scale_y`; with `square_long` both become the longer side;
the center then moves along the rectangle's own rotated axes by
`shift_x × width` and `shift_y × height` of the resulting sides (the spec's
worked example fixes the shift to use the final height); center, rotation and
squaring stay otherwise unchanged. -/
noncomputable def RectTransformation (cfg : RectTransformationConfig)
    (r : NormalizedRect) : NormalizedRect :=
  let w1 := r.width * cfg.scaleX
  let h1 := r.height * cfg.scaleY
  let w := if cfg.squareLong then max w1 h1 else w1
  let h := if cfg.squareLong then max w1 h1 else h1
  { xCenter := r.xCenter + cfg.shiftX * w * Real.cos r.rotation
      - cfg.shiftY * h * Real.sin r.rotation
    yCenter := r.yCenter + cfg.shiftX * w * Real.sin r.rotation
      + cfg.shiftY * h * Real.cos r.rotation
    width := w
    height := h
    rotation := r.rotation }

/-- Modelled from the spec: pixel-space conversion of one detection by
`DetectionTransformationCalculator` (not in the given tree): the box is scaled
from normalized to pixel coordinates by the image size; score and keypoints
are untouched. -/
def toPixelDetection (sz : ImageSize) (d : Detection) : Detection :=
  { score := d.score
    box :=
      { xCenter := d.box.xCenter * sz.width
        yCenter := d.box.yCenter * sz.height
        width := d.box.width * sz.width
        height := d.box.height * sz.height }
    keypoints := d.keypoints }

/-- Modelled from the spec: the relative-to-pixel conversion stage
(`DetectionTransformationCalculator`, not in the given tree). -/
def DetectionTransformation (sz : ImageSize) (dets : List Detection) :
    List Detection :=
  dets.map (toPixelDetection sz)

/-- The task options `BuildPoseDetectionSubgraph` reads:
`min_detection_confidence`, `min_suppression_threshold`, and the optional
`num_poses`. -/
structure PoseDetectorGraphOptions where
  minDetectionConfidence : ℚ
  minSuppressionThreshold : ℚ
  numPoses : Option Nat
  deriving Repr, DecidableEq

/-- The detection stream after `DetectionProjectionCalculator`
(pose_detector_graph.cc lines 265-291): tensors pass through the decoder with
the configuration of `ConfigureTensorsToDetectionsCalculator`, then
non-maximum suppression with `ConfigureNonMaxSuppressionCalculator`, then
projection back into input-image coordinates.  `σ` stands for the logistic
sigmoid, `anchors` for the SSD anchor side packet, `rows` for the model's
output tensors, `m` for the preprocessing matrix. -/
def projectedPoseDetections (opts : PoseDetectorGraphOptions) (σ : ℚ → ℚ)
    (anchors : List Anchor) (rows : List RawRow) (m : AffineTransform) :
    List Detection :=
  DetectionProjection m
    (NonMaxSuppression
      (ConfigureNonMaxSuppressionCalculator opts.minSuppressionThreshold)
      (TensorsToDetections σ
        (ConfigureTensorsToDetectionsCalculator opts.minDetectionConfidence)
        anchors rows))

/-- The detection stream after the optional clip node (pose_detector_graph.cc
lines 293-303): when `num_poses` is set, a `ClipDetectionVectorSizeCalculator`
with `max_vec_size = num_poses` is inserted; otherwise the projected stream is
used as is. -/
def clippedPoseDetections (opts : PoseDetectorGraphOptions) (σ : ℚ → ℚ)
    (anchors : List Anchor) (rows : List RawRow) (m : AffineTransform) :
    List Detection :=
  limiter opts.numPoses (projectedPoseDetections opts σ anchors rows m)

/-- The `DETECTIONS` output of the graph (pose_detector_graph.cc lines 328-341
and 211-212): `DetectionTransformationCalculator` converts the stream taken
directly from `detection_projection.Out(kDetectionsTag)` — the projected,
un-clipped stream — into pixel coordinates. -/
def detectionsOutput (opts : PoseDetectorGraphOptions) (σ : ℚ → ℚ)
    (anchors : List Anchor) (rows : List RawRow) (m : AffineTransform)
    (sz : ImageSize) : List Detection :=
  DetectionTransformation sz (projectedPoseDetections opts σ anchors rows m)

/-- The `POSE_RECTS` output of the graph (pose_detector_graph.cc lines
305-315): `DetectionsToRectsCalculator` applied to the clipped stream. -/
noncomputable def poseRectsOutput (opts : PoseDetectorGraphOptions) (σ : ℚ → ℚ)
    (anchors : List Anchor) (rows : List RawRow) (m : AffineTransform) :
    List NormalizedRect :=
  DetectionsToRects ConfigureDetectionsToRectsCalculator
    (clippedPoseDetections opts σ anchors rows m)

/-- The `EXPANDED_POSE_RECTS` output of the graph (pose_detector_graph.cc
lines 317-326): `RectTransformationCalculator` applied rect-by-rect to
`POSE_RECTS`. -/
noncomputable def expandedPoseRectsOutput (opts : PoseDetectorGraphOptions)
    (σ : ℚ → ℚ) (anchors : List Anchor) (rows : List RawRow)
    (m : AffineTransform) : List NormalizedRect :=
  (poseRectsOutput opts σ anchors rows m).map
    (RectTransformation ConfigureRectTransformationCalculator)

/-- The two fields of `ImageToTensorCalculatorOptions` that
`BuildPoseDetectionSubgraph` overrides. -/
structure ImageToTensorOptions where
  keepAspectRatio : Bool
  borderZero : Bool
  deriving Repr, DecidableEq

/-- Translation of pose_detector_graph.cc lines 238-245: whatever
`ConfigureImagePreprocessingGraph` produced, the subgraph then sets
`keep_aspect_ratio = true` and `border_mode = BORDER_ZERO` on the
image-to-tensor options. -/
def overrideImageToTensorOptions (o : ImageToTensorOptions) :
    ImageToTensorOptions :=
  { o with keepAspectRatio := true, borderZero := true }

/-!  Concrete fixtures used to evaluate the pipeline on explicit inputs. -/

/-- A fixed-size anchor at (0.2, 0.2), as the configured anchor grid produces
(`fixed_anchor_size` forces w = h = 1). -/
def anchorA : Anchor := ⟨1/5, 1/5, 1, 1⟩

/-- A fixed-size anchor at (0.7, 0.7). -/
def anchorB : Anchor := ⟨7/10, 7/10, 1, 1⟩

/-- A tensor row with all-zero box data and raw score 0.9. -/
def rowHigh : RawRow := ⟨[0, 0, 0, 0, 0, 0, 0, 0, 0, 0, 0, 0], 9/10⟩

/-- A tensor row with all-zero box data and raw score 0.8. -/
def rowMid : RawRow := ⟨[0, 0, 0, 0, 0, 0, 0, 0, 0, 0, 0, 0], 8/10⟩

/-- The detection `rowHigh` decodes to against `anchorA`: a zero-size box at
the anchor center, all four keypoints at the anchor center, score 0.9. -/
def detA : Detection :=
  ⟨9/10, ⟨1/5, 1/5, 0, 0⟩, [(1/5, 1/5), (1/5, 1/5), (1/5, 1/5), (1/5, 1/5)]⟩

/-- The detection `rowMid` decodes to against `anchorB`. -/
def detB : Detection :=
  ⟨4/5, ⟨7/10, 7/10, 0, 0⟩, [(7/10, 7/10), (7/10, 7/10), (7/10, 7/10), (7/10, 7/10)]⟩

/-- Task options with `min_detection_confidence = 0.5`,
`min_suppression_threshold = 0.5` and `num_poses = 1`. -/
def testOpts : PoseDetectorGraphOptions := ⟨1/2, 1/2, some 1⟩

/-- The identity projection matrix. -/
def idTransform : AffineTransform := ⟨1, 0, 0, 1, 0, 0⟩

/-- A 200 × 100 input frame. -/
def testImageSize : ImageSize := ⟨200, 100⟩

/-- A detection with score 0.9 and a quarter-size box at the image center. -/
def mergeA : Detection := ⟨9/10, ⟨1/2, 1/2, 1/4, 1/4⟩, []⟩

/-- A detection with score 0.6 and the same box as `mergeA` (IoU 1). -/
def mergeB : Detection := ⟨6/10, ⟨1/2, 1/2, 1/4, 1/4⟩, []⟩

/-- A detection with score 0.6 and a box disjoint from `mergeA`'s (IoU 0). -/
def mergeC : Detection := ⟨6/10, ⟨10, 10, 1/4, 1/4⟩, []⟩

/-- The input rect of the RectExpander worked example. -/
def testRect : NormalizedRect := ⟨0.5, 0.5, 0.2, 0.1, 0⟩

/-!  Evaluation lemmas for the concrete fixtures (shared by several
theorems below). -/

theorem decoded_fixture :
    TensorsToDetections id (ConfigureTensorsToDetectionsCalculator (1/2))
      [anchorA, anchorB] [rowHigh, rowMid] = [detA, detB] := by
  norm_num [TensorsToDetections, decodeRow, finalScore, clip,
    ConfigureTensorsToDetectionsCalculator, anchorA, anchorB, rowHigh, rowMid,
    detA, detB, List.range_succ, List.getD, List.zip_cons_cons]

theorem iou_fixture : iou detA.box detB.box = 0 := by
  norm_num [iou, Box.area, detA, detB]

theorem nms_fixture :
    NonMaxSuppression ⟨1/2⟩ [detA, detB] = [detA, detB] := by
  have hsort : sortByScoreDesc [detA, detB] = [detA, detB] := by
    norm_num [sortByScoreDesc, insertByScoreDesc, detA, detB]
  have hf1 : List.filter (fun d => decide ((1 : ℚ)/2 ≤ iou detA.box d.box))
      [detB] = [] := by
    norm_num [iou_fixture]
  have hf2 : List.filter (fun d => !decide ((1 : ℚ)/2 ≤ iou detA.box d.box))
      [detB] = [detB] := by
    norm_num [iou_fixture]
  have hwcA : weightedCluster detA [detA] = detA := by
    norm_num [weightedCluster, detA, List.range_succ, List.getD]
  have hwcB : weightedCluster detB [detB] = detB := by
    norm_num [weightedCluster, detB, List.range_succ, List.getD]
  show nmsLoop (1/2) 2 (sortByScoreDesc [detA, detB]) = _
  rw [hsort]
  simp only [nmsLoop, hf1, hf2, List.filter_nil, hwcA, hwcB]

theorem projected_fixture :
    projectedPoseDetections testOpts id [anchorA, anchorB] [rowHigh, rowMid]
      idTransform = [detA, detB] := by
  have h1 : ConfigureNonMaxSuppressionCalculator testOpts.minSuppressionThreshold
      = ⟨1/2⟩ := rfl
  have h2 : testOpts.minDetectionConfidence = 1/2 := rfl
  rw [projectedPoseDetections, h1, h2, decoded_fixture, nms_fixture]
  norm_num [DetectionProjection, projectDetection, projectBox,
    AffineTransform.apply, idTransform, detA, detB, min_self, max_self]

theorem clipped_fixture :
    clippedPoseDetections testOpts id [anchorA, anchorB] [rowHigh, rowMid]
      idTransform = [detA] := by
  rw [clippedPoseDetections, projected_fixture]
  simp [testOpts, limiter, ClipVectorSize]

/-!  Claims. -/

/-- C9: for every configuration the pipeline accepts, the image-to-tensor
preprocessing options are overridden to `keep_aspect_ratio = true` and border
mode `BORDER_ZERO`, regardless of what the preprocessing configuration step
requested. -/
theorem preprocessing_override_forces_letterbox (o : ImageToTensorOptions) :
    (overrideImageToTensorOptions o).keepAspectRatio = true ∧
    (overrideImageToTensorOptions o).borderZero = true :=
  ⟨rfl, rfl⟩

/-- C2: the Limiter truncates to the first `num_poses` entries in input order
when `num_poses` is set and the input is longer; it passes the input through
unchanged when the input is not longer, and also when `num_poses` is unset. -/
theorem limiter_truncates_or_passes (l : List Detection) (n : Nat) :
    (n < l.length → limiter (some n) l = l.take n) ∧
    (¬ n < l.length → limiter (some n) l = l) ∧
    limiter none l = l := by
  refine ⟨fun h => ?_, fun h => ?_, rfl⟩
  · simp [limiter, ClipVectorSize, h]
  · simp [limiter, ClipVectorSize, h]

/-- Witness for C2: five priority-ordered detections and `num_poses = 2` keep
exactly the first two; with `num_poses` unset the list is unchanged. -/
theorem limiter_truncates_or_passes_witness :
    (2 < (List.replicate 5 (default : Detection)).length) ∧
    limiter (some 2) (List.replicate 5 (default : Detection)) =
      (List.replicate 5 (default : Detection)).take 2 ∧
    limiter none (List.replicate 5 (default : Detection)) =
      List.replicate 5 (default : Detection) :=
  ⟨by decide,
   (limiter_truncates_or_passes (List.replicate 5 default) 2).1 (by decide),
   (limiter_truncates_or_passes (List.replicate 5 default) 2).2.2⟩

/-- C6: the Projector preserves the length of the detection sequence and
leaves every detection's score and keypoint count unchanged. -/
theorem projector_preserves_length_score_keypoints
    (m : AffineTransform) (dets : List Detection) :
    (DetectionProjection m dets).length = dets.length ∧
    (DetectionProjection m dets).map (fun d => (d.score, d.keypoints.length)) =
      dets.map (fun d => (d.score, d.keypoints.length)) := by
  constructor
  · simp [DetectionProjection]
  · simp [DetectionProjection, projectDetection]

/-- C4: with the configuration the source installs (`sigmoid_score` set,
`score_clipping_thresh = 100`, `min_score_thresh = min_detection_confidence`),
every decoded row's final score is `σ (clip raw (-100) 100)` where `σ` is the
sigmoid; every emitted detection's score reaches `min_score_thresh` (rows
strictly below never appear); and the output is a sublist of the decoded rows
in tensor row order. -/
theorem tensor_decoder_score_filter_order (σ : ℚ → ℚ) (minConf : ℚ)
    (anchors : List Anchor) (rows : List RawRow) :
    (∀ (a : Anchor) (r : RawRow),
      (decodeRow σ (ConfigureTensorsToDetectionsCalculator minConf) a r).score
        = σ (clip r.rawScore (-100) 100)) ∧
    ((TensorsToDetections σ (ConfigureTensorsToDetectionsCalculator minConf)
        anchors rows).all (fun d => decide (minConf ≤ d.score)) = true) ∧
    List.Sublist
      (TensorsToDetections σ (ConfigureTensorsToDetectionsCalculator minConf)
        anchors rows)
      ((anchors.zip rows).map (fun p =>
        decodeRow σ (ConfigureTensorsToDetectionsCalculator minConf) p.1 p.2)) := by
  refine ⟨fun a r => rfl, ?_, List.filter_sublist _⟩
  simp only [TensorsToDetections, List.all_eq_true, List.mem_filter]
  exact fun d h => h.2

/-- C3: with the zero-rect policy the source enables, the RectDeriver turns an
empty (post-Limiter) detection sequence into exactly one zero-valued
NormalizedRect, and the `POSE_RECTS` output is never an empty list. -/
theorem rect_deriver_zero_rect_on_empty (opts : PoseDetectorGraphOptions)
    (σ : ℚ → ℚ) (anchors : List Anchor) (rows : List RawRow)
    (m : AffineTransform) :
    DetectionsToRects ConfigureDetectionsToRectsCalculator [] = [zeroRect] ∧
    (clippedPoseDetections opts σ anchors rows m = [] →
      poseRectsOutput opts σ anchors rows m = [zeroRect]) ∧
    poseRectsOutput opts σ anchors rows m ≠ [] := by
  have hempty :
      DetectionsToRects ConfigureDetectionsToRectsCalculator [] = [zeroRect] := by
    simp [DetectionsToRects, ConfigureDetectionsToRectsCalculator]
  refine ⟨hempty, fun h => ?_, ?_⟩
  · rw [poseRectsOutput, h, hempty]
  · rw [poseRectsOutput]
    cases clippedPoseDetections opts σ anchors rows m with
    | nil => rw [hempty]; simp
    | cons d t => simp [DetectionsToRects]

/-- Witness for C3: with no tensor rows at all, the clipped stream is empty
and the `POSE_RECTS` output is exactly one zero rect. -/
theorem rect_deriver_zero_rect_on_empty_witness :
    clippedPoseDetections testOpts id [] [] idTransform = [] ∧
    poseRectsOutput testOpts id [] [] idTransform = [zeroRect] :=
  ⟨by decide,
   (rect_deriver_zero_rect_on_empty testOpts id [] [] idTransform).2.1 (by decide)⟩

/-- C10: with `num_poses` set, both rect outputs derive from the clipped
detection stream: `POSE_RECTS` has at most `num_poses` rects whenever any
clipped detection remains, is exactly one zero rect when none remains, and
`EXPANDED_POSE_RECTS` has exactly one rect per pose rect. -/
theorem rect_outputs_follow_clipped_stream (opts : PoseDetectorGraphOptions)
    (σ : ℚ → ℚ) (anchors : List Anchor) (rows : List RawRow)
    (m : AffineTransform) (n : Nat) (hn : opts.numPoses = some n) :
    (clippedPoseDetections opts σ anchors rows m ≠ [] →
      (poseRectsOutput opts σ anchors rows m).length ≤ n) ∧
    (clippedPoseDetections opts σ anchors rows m = [] →
      poseRectsOutput opts σ anchors rows m = [zeroRect]) ∧
    (expandedPoseRectsOutput opts σ anchors rows m).length =
      (poseRectsOutput opts σ anchors rows m).length := by
  have hlen : (clippedPoseDetections opts σ anchors rows m).length ≤ n := by
    simp only [clippedPoseDetections, hn, limiter, ClipVectorSize]
    by_cases h : n < (projectedPoseDetections opts σ anchors rows m).length
    · simp [h]
    · simp only [h, if_false]
      exact Nat.le_of_not_lt h
  refine ⟨fun h => ?_, fun h => ?_, ?_⟩
  · rw [poseRectsOutput]
    cases hc : clippedPoseDetections opts σ anchors rows m with
    | nil => exact absurd hc h
    | cons d t =>
      rw [DetectionsToRects]
      rw [← hc, List.length_map]
      exact hlen
  · rw [poseRectsOutput, h]
    simp [DetectionsToRects, ConfigureDetectionsToRectsCalculator]
  · rw [expandedPoseRectsOutput, List.length_map]

/-- Witness for C10: on a frame with two surviving detections and
`num_poses = 1`, `POSE_RECTS` carries a single rect and
`EXPANDED_POSE_RECTS` has the same length. -/
theorem rect_outputs_follow_clipped_stream_witness :
    (poseRectsOutput testOpts id [anchorA, anchorB] [rowHigh, rowMid]
      idTransform).length ≤ 1 ∧
    (expandedPoseRectsOutput testOpts id [anchorA, anchorB] [rowHigh, rowMid]
      idTransform).length =
      (poseRectsOutput testOpts id [anchorA, anchorB] [rowHigh, rowMid]
        idTransform).length :=
  ⟨(rect_outputs_follow_clipped_stream testOpts id [anchorA, anchorB]
      [rowHigh, rowMid] idTransform 1 rfl).1
      (by rw [clipped_fixture]; exact List.cons_ne_nil _ _),
   (rect_outputs_follow_clipped_stream testOpts id [anchorA, anchorB]
      [rowHigh, rowMid] idTransform 1 rfl).2.2⟩

/-- C1 (failing run): with `num_poses = 1` and two detections surviving
suppression, the `DETECTIONS` output — wired from the projection stage's
output, bypassing the clip node — carries 2 pixel-space detections, while the
clipped stream the rect outputs use has length 1. -/
theorem detections_output_bypasses_num_poses_clip :
    testOpts.numPoses = some 1 ∧
    (detectionsOutput testOpts id [anchorA, anchorB] [rowHigh, rowMid]
      idTransform testImageSize).length = 2 ∧
    (clippedPoseDetections testOpts id [anchorA, anchorB] [rowHigh, rowMid]
      idTransform).length = 1 := by
  refine ⟨rfl, ?_, by rw [clipped_fixture]; rfl⟩
  rw [detectionsOutput, projected_fixture]
  rfl

/-- C5: the Suppressor is weighted non-max suppression under axis-aligned IoU:
for two detections with scores 0.9 and 0.6 whose boxes have IoU 1 (and an
overlap threshold in (0, 1]), the output is the single weighted merge of both,
keeping the seed's score 0.9 and averaging the box center with the scores as
weights; for boxes with IoU 0 the two detections never merge. -/
theorem suppressor_weighted_merge (thresh : ℚ) (d1 d2 : Detection)
    (h0 : 0 < thresh) (h1 : thresh ≤ 1)
    (hs1 : d1.score = 9/10) (hs2 : d2.score = 6/10) :
    (iou d1.box d2.box = 1 →
      NonMaxSuppression ⟨thresh⟩ [d1, d2] = [weightedCluster d1 [d1, d2]] ∧
      (weightedCluster d1 [d1, d2]).score = 9/10 ∧
      (weightedCluster d1 [d1, d2]).box.xCenter =
        (9/10 * d1.box.xCenter + 6/10 * d2.box.xCenter) / (9/10 + 6/10) ∧
      (weightedCluster d1 [d1, d2]).box.yCenter =
        (9/10 * d1.box.yCenter + 6/10 * d2.box.yCenter) / (9/10 + 6/10)) ∧
    (iou d1.box d2.box = 0 →
      (NonMaxSuppression ⟨thresh⟩ [d1, d2]).length = 2) := by
  have hsort : sortByScoreDesc [d1, d2] = [d1, d2] := by
    have h : d2.score ≤ d1.score := by rw [hs1, hs2]; norm_num
    simp [sortByScoreDesc, insertByScoreDesc, h]
  constructor
  · intro hi
    have hc : decide (thresh ≤ iou d1.box d2.box) = true := by
      rw [hi]; exact decide_eq_true h1
    refine ⟨?_, ?_, ?_, ?_⟩
    · show nmsLoop thresh 2 (sortByScoreDesc [d1, d2]) = _
      rw [hsort]
      simp only [nmsLoop, List.filter_cons, List.filter_nil, hc,
        Bool.not_true, if_true, if_false, Bool.false_eq_true]
    · simp [weightedCluster, hs1]
    · simp only [weightedCluster, List.map_cons, List.map_nil, List.sum_cons,
        List.sum_nil, hs1, hs2]
      norm_num
    · simp only [weightedCluster, List.map_cons, List.map_nil, List.sum_cons,
        List.sum_nil, hs1, hs2]
      norm_num
  · intro hi
    have hc : decide (thresh ≤ iou d1.box d2.box) = false := by
      rw [hi]; exact decide_eq_false (not_le.mpr h0)
    show (nmsLoop thresh 2 (sortByScoreDesc [d1, d2])).length = 2
    rw [hsort]
    simp only [nmsLoop, List.filter_cons, List.filter_nil, hc,
      Bool.not_false, if_true, if_false, Bool.false_eq_true]
    rfl

/-- Witness for C5: concrete detections with identical boxes (IoU 1) merge to
one detection of score 0.9; with disjoint boxes (IoU 0) the output keeps both
detections. -/
theorem suppressor_weighted_merge_witness :
    (NonMaxSuppression ⟨1/2⟩ [mergeA, mergeB] =
        [weightedCluster mergeA [mergeA, mergeB]] ∧
      (weightedCluster mergeA [mergeA, mergeB]).score = 9/10) ∧
    (NonMaxSuppression ⟨1/2⟩ [mergeA, mergeC]).length = 2 :=
  ⟨⟨((suppressor_weighted_merge (1/2) mergeA mergeB (by norm_num) (by norm_num)
        rfl rfl).1 (by norm_num [iou, Box.area, mergeA, mergeB])).1,
    ((suppressor_weighted_merge (1/2) mergeA mergeB (by norm_num) (by norm_num)
        rfl rfl).1 (by norm_num [iou, Box.area, mergeA, mergeB])).2.1⟩,
   (suppressor_weighted_merge (1/2) mergeA mergeC (by norm_num) (by norm_num)
        rfl rfl).2 (by norm_num [iou, Box.area, mergeA, mergeC])⟩

/-- C7: the RectDeriver's configuration uses start keypoint index 0, end
keypoint index 2 and target angle 90°; its rotation formula
`normalize (target − atan2(end.y − start.y, end.x − start.x))` yields 90°
(i.e. π/2 radians) when the two rotation keypoints sit at (0,0) and (1,0). -/
theorem rect_deriver_rotation_example :
    ConfigureDetectionsToRectsCalculator.rotationVectorStartKeypointIndex = 0 ∧
    ConfigureDetectionsToRectsCalculator.rotationVectorEndKeypointIndex = 2 ∧
    ConfigureDetectionsToRectsCalculator.rotationVectorTargetAngle = Real.pi / 2 ∧
    computeRotation ConfigureDetectionsToRectsCalculator
      [(0, 0), (0, 0), (1, 0)] = Real.pi / 2 := by
  have hatan : atan2 (0 : ℝ) 1 = 0 := by
    simp only [atan2]
    norm_num [Real.arctan_zero]
  have hnorm : normalizeRadians (Real.pi / 2) = Real.pi / 2 := by
    have h34 : (Real.pi / 2 + Real.pi) / (2 * Real.pi) = 3/4 := by
      have hπ := Real.pi_ne_zero
      field_simp
      ring
    have hf : ⌊(3/4 : ℝ)⌋ = (0 : ℤ) := by
      rw [Int.floor_eq_zero_iff]
      constructor <;> norm_num
    simp only [normalizeRadians, h34, hf]
    norm_num
  refine ⟨rfl, rfl, rfl, ?_⟩
  simp only [computeRotation, ConfigureDetectionsToRectsCalculator, List.getD]
  norm_num [hatan, hnorm]

/-- C8: with the configured expansion parameters `scale_x = scale_y = 2.6`,
`shift_y = -0.5`, `square_long = true`, the rect
{cx=0.5, cy=0.5, w=0.2, h=0.1, rot=0} expands to a square of side
max(0.2, 0.1) × 2.6 = 0.52 whose center is shifted along the (unrotated)
y-axis by −0.5 × 0.52, keeping center x and rotation. -/
theorem rect_expander_example :
    ConfigureRectTransformationCalculator.scaleX = 2.6 ∧
    ConfigureRectTransformationCalculator.scaleY = 2.6 ∧
    ConfigureRectTransformationCalculator.shiftY = -0.5 ∧
    ConfigureRectTransformationCalculator.squareLong = true ∧
    (RectTransformation ConfigureRectTransformationCalculator testRect).width
      = 0.52 ∧
    (RectTransformation ConfigureRectTransformationCalculator testRect).height
      = 0.52 ∧
    (RectTransformation ConfigureRectTransformationCalculator testRect).xCenter
      = 0.5 ∧
    (RectTransformation ConfigureRectTransformationCalculator testRect).yCenter
      = 0.5 + (-0.5) * 0.52 ∧
    (RectTransformation ConfigureRectTransformationCalculator testRect).rotation
      = 0 := by
  have hmax : max ((0.2 : ℝ) * 2.6) ((0.1 : ℝ) * 2.6) = 0.52 := by
    rw [max_eq_left (by norm_num)]
    norm_num
  refine ⟨rfl, rfl, rfl, rfl, ?_, ?_, ?_, ?_, rfl⟩ <;>
    simp only [RectTransformation, ConfigureRectTransformationCalculator,
      testRect, if_true, hmax] <;>
    norm_num [Real.sin_zero, Real.cos_zero]

end PoseDetector
